import Mathlib

/-!
Verification development for the solar-bot conversational backend.

The definitions below are a shallow embedding of the Python sources:

* `src/services/calendar_service.py` — `CalendarService` (availability checks,
  event creation, datetime validation);
* `src/services/agents/calendar_agent.py` — `CalendarAgent` (agent-level
  availability check, booking, datetime validation);
* `src/services/agents/solar_agent.py` + `src/services/solar_calculator.py` —
  the solar capability `calculate_solar_system`;
* `src/services/agents/base_agent.py` — `BaseAgent.process` and its bounded
  capability-call recursion;
* `src/services/orchestrator.py` — `Orchestrator.process_message`,
  `_handle_handoff` and the context merge.

External collaborators (the OpenAI provider, geocoding, the PVGIS yield API,
the Google calendar backend) are modelled as oracle parameters: a theorem that
quantifies over the oracle holds for every possible behaviour of the external
service.  Python dictionaries are modelled as insertion-ordered association
lists, Python `float` arithmetic as exact rational arithmetic, and Python
exceptions as explicit control flow ((`Option`-valued lookups and error
results), mirroring the `try`/`except` blocks of the sources.
-/

namespace SolarBot

/-! ### Datetimes

`datetime` values are modelled by their wall-clock fields (the code runs
everything in the Europe/Berlin zone and compares only datetimes of the same
zone, so zone conversions are identity here).  Python datetime comparison is
field-lexicographic, which `DateTime.key` realises as a `Nat` (the radix
bounds 13/32/24/60 strictly dominate every valid field).  `dayNumber` is the
proleptic-Gregorian ordinal used by `datetime.weekday()` (day 0 = 0001-01-01,
a Monday). -/

structure DateTime where
  year : Nat
  month : Nat
  day : Nat
  hour : Nat
  minute : Nat
deriving DecidableEq, Repr

/-- Field ranges a real `datetime` object always satisfies. -/
def DateTime.validFields (d : DateTime) : Prop :=
  1 ≤ d.month ∧ d.month ≤ 12 ∧ 1 ≤ d.day ∧ d.day ≤ 31 ∧ d.hour ≤ 23 ∧ d.minute ≤ 59

instance (d : DateTime) : Decidable d.validFields := by
  unfold DateTime.validFields; infer_instance

/-- Lexicographic encoding of a datetime; on valid fields, `key` ordering is
exactly Python datetime comparison. -/
def DateTime.key (d : DateTime) : Nat :=
  (((d.year * 13 + d.month) * 32 + d.day) * 24 + d.hour) * 60 + d.minute

def isLeapYear (y : Nat) : Bool :=
  y % 4 == 0 && (y % 100 != 0 || y % 400 == 0)

def monthLengths (leap : Bool) : List Nat :=
  [31, if leap then 29 else 28, 31, 30, 31, 30, 31, 31, 30, 31, 30, 31]

def daysBeforeMonth (leap : Bool) (m : Nat) : Nat :=
  ((monthLengths leap).take (m - 1)).sum

def daysBeforeYear (y : Nat) : Nat :=
  (y - 1) * 365 + (y - 1) / 4 - (y - 1) / 100 + (y - 1) / 400

/-- Proleptic-Gregorian day ordinal, `0001-01-01` ↦ `0`. -/
def DateTime.dayNumber (d : DateTime) : Nat :=
  daysBeforeYear d.year + daysBeforeMonth (isLeapYear d.year) d.month + (d.day - 1)

/-- `datetime.weekday()`: 0 = Monday … 6 = Sunday (0001-01-01 is a Monday). -/
def DateTime.weekday (d : DateTime) : Nat :=
  d.dayNumber % 7

/-- Absolute minutes since 0001-01-01 00:00; used for the interval arithmetic
that the calendar service performs with `timedelta`. -/
def DateTime.toMin (d : DateTime) : Nat :=
  d.dayNumber * 1440 + d.hour * 60 + d.minute

/-! ### Python dictionaries -/

/-- A Python value as it appears in the response dictionaries of the services:
booleans, strings, datetimes (the code stores them as `isoformat()` strings,
which are in bijection with the datetime itself), absolute times in minutes
(for `isoformat()` strings of derived instants such as `start`/`end`), and
nested dictionaries. -/
inductive PyVal where
  | b : Bool → PyVal
  | s : String → PyVal
  | n : Nat → PyVal
  | time : DateTime → PyVal
  | dict : List (String × PyVal) → PyVal

/-- An insertion-ordered Python dictionary with string keys. -/
abbrev Dict := List (String × PyVal)

/-- `d[k]` / `d.get(k)`: the (first) binding of `k`. -/
def dlookup : Dict → String → Option PyVal
  | [], _ => none
  | p :: rest, k => if p.1 = k then some p.2 else dlookup rest k

/-- Python truthiness of `d.get(k)`: a missing key yields `None` (falsy);
`False`, `""`, `0`, and `{}` are falsy; everything else is truthy. -/
def pyTruthy : Option PyVal → Bool
  | none => false
  | some (.b v) => v
  | some (.s v) => !(v == "")
  | some (.n v) => !(v == 0)
  | some (.time _) => true
  | some (.dict l) => !l.isEmpty

/-! ### CalendarService (`src/services/calendar_service.py`) -/

/-- A busy interval in the backing Google calendar, in absolute minutes. -/
structure Event where
  start : Nat
  stop : Nat
deriving DecidableEq, Repr

/-- The `events().list(timeMin, timeMax, singleEvents=True)` query: events
intersecting the open window `(tmin, tmax)` (Google returns events with
`end > timeMin` and `start < timeMax`). -/
def listOverlapping (store : List Event) (tmin tmax : Nat) : List Event :=
  store.filter fun e => decide (e.start < tmax) && decide (tmin < e.stop)

/-- Result of `CalendarService.check_availability` together with whether the
backing calendar was queried (`events().list(...)` issued). -/
structure AvailCheck where
  result : Dict
  queried : Bool

/-- `CalendarService.check_availability(start_time)`: business-hour check,
then business-day check, then the conflicting-events query over the slot
padded by a 30-minute buffer on each side. -/
def serviceCheckAvailability (d : DateTime) (store : List Event) : AvailCheck :=
  if !(9 ≤ d.hour && d.hour < 17) then
    { result := [("available", .b false),
                 ("message", .s "Termine sind nur zwischen 9:00 und 17:00 Uhr möglich.")],
      queried := false }
  else if 5 ≤ d.weekday then
    { result := [("available", .b false),
                 ("message", .s "Termine sind nur von Montag bis Freitag möglich.")],
      queried := false }
  else
    let startMin := d.toMin
    let events := listOverlapping store (startMin - 30) (startMin + 60 + 30)
    if !events.isEmpty then
      { result := [("available", .b false),
                   ("message", .s "Dieser Termin ist bereits vergeben.")],
        queried := true }
    else
      { result := [("available", .b true),
                   ("start", .n startMin), ("end", .n (startMin + 60))],
        queried := true }

/-- `CalendarService.create_event(date, email, description)`: re-check
availability, return the unavailability result unchanged if the slot is taken,
otherwise insert a 60-minute event.  The `id`/`link` fields of the success
dictionary come from the external API response and are opaque here. -/
def createEvent (d : DateTime) (store : List Event) : Dict × List Event :=
  let avail := serviceCheckAvailability d store
  if !pyTruthy (dlookup avail.result "available") then
    (avail.result, store)
  else
    let startMin := d.toMin
    ([("success", .b true),
      ("id", .s "external-event-id"), ("link", .s "external-event-link"),
      ("start", .n startMin), ("end", .n (startMin + 60))],
     store ++ [{ start := startMin, stop := startMin + 60 }])

/-- Length of month `m` (1-based) in year `y`, as `datetime` validates it. -/
def daysInMonth (y m : Nat) : Nat :=
  (monthLengths (isLeapYear y)).getD (m - 1) 31

/-- `dt.replace(year=y)`: keeps month/day/time and revalidates the day
against the new year — `ValueError` (`none`) when the day does not exist in
that year's month, i.e. for Feb 29 bumped into a non-leap year. -/
def replaceYear (d : DateTime) (y : Nat) : Option DateTime :=
  if d.day ≤ daysInMonth y d.month then some { d with year := y } else none

/-- `CalendarService._validate_datetime`: after parsing, a year strictly
before the current year is bumped to the current year, and once more to the
next year if the result is still in the past; otherwise the parsed datetime
is returned unchanged (timezone localisation keeps the wall-clock fields).
A `ValueError` raised by either `replace` call is caught by the surrounding
`except ValueError` and re-raised as "Ungültiges Datum oder Zeit: …",
modelled by the `Except.error` result. -/
def serviceValidateDatetime (now d : DateTime) : Except String DateTime :=
  if d.year < now.year then
    match replaceYear d now.year with
    | none => .error "Ungültiges Datum oder Zeit"
    | some d1 =>
        if d1.key < now.key then
          match replaceYear d1 (now.year + 1) with
          | none => .error "Ungültiges Datum oder Zeit"
          | some d2 => .ok d2
        else .ok d1
  else .ok d

/-- Spec-side definition, following the spec's words: "the year is rolled
forward to the next occurrence of that month/day that is not in the past" —
the earliest year at which `d`'s month/day/time is not before `now`. -/
def specNextOccurrence (now d : DateTime) : DateTime :=
  if ({ d with year := now.year } : DateTime).key < now.key then
    { d with year := now.year + 1 }
  else
    { d with year := now.year }

/-! ### CalendarAgent (`src/services/agents/calendar_agent.py`) -/

/-- `CalendarAgent._validate_datetime`: parses date and time and localises to
Europe/Berlin; the wall-clock fields are returned unchanged — unlike the
service-level validator it performs no year rollforward. -/
def agentValidateDatetime (d : DateTime) : DateTime := d

/-- `CalendarAgent._is_business_hours`. -/
def isBusinessHours (d : DateTime) : Bool :=
  d.weekday < 5 && (9 ≤ d.hour && d.hour < 17)

/-- `CalendarAgent.check_availability(date, time)`.  The `alternatives` value
is the result of `suggest_alternatives`, an unbounded forward scan over the
external calendar; no claim depends on its content, so it is passed in as an
oracle value.  Note the line `is_available = await
self.calendar_service.check_availability(dt)` followed by `if not
is_available:`: the service returns a dictionary, so the test is dictionary
truthiness (emptiness), not the `available` field. -/
def calendarAgentCheckAvailability (d : DateTime) (store : List Event)
    (alternatives : PyVal) : Dict :=
  if !isBusinessHours d then
    [("available", .b false),
     ("reason", .s "Termin außerhalb der Geschäftszeiten (Mo-Fr 9:00-17:00)"),
     ("alternatives", alternatives)]
  else
    let isAvailable := (serviceCheckAvailability d store).result
    if isAvailable.isEmpty then
      [("available", .b false),
       ("reason", .s "Termin bereits vergeben"),
       ("alternatives", alternatives)]
    else
      [("available", .b true), ("datetime", .time d)]

/-- Outcome of `CalendarAgent.book_appointment`: either the (unavailability)
dictionary returned by the agent-level availability check, or the success
dictionary `{"success": True, "appointment": {"datetime": dt.isoformat(),
"name": …, "email": …, …}}`; `booked` records the datetime actually passed to
`create_appointment` and echoed to the caller. -/
inductive BookResult where
  | unavailable (availability : Dict)
  | booked (usedDatetime : DateTime) (email name : String)

/-- `CalendarAgent.book_appointment(date, time, email, name, …)`: agent-level
availability check, `_validate_datetime`, then
`calendar_service.create_appointment` (which delegates to `create_event`);
the creation result is discarded and a success dictionary is returned. -/
def calendarAgentBookAppointment (d : DateTime) (email name : String)
    (store : List Event) (alternatives : PyVal) : BookResult × List Event :=
  let availability := calendarAgentCheckAvailability d store alternatives
  if !pyTruthy (dlookup availability "available") then
    (.unavailable availability, store)
  else
    let dt := agentValidateDatetime d
    let created := createEvent dt store
    (.booked dt email name, created.2)

/-! ### SolarCalculator (`src/services/solar_calculator.py`) and the solar
capability (`src/services/agents/solar_agent.py`)

Float arithmetic is modelled exactly over `ℚ`; `round(x, n)` is Python's
round-half-to-even.  The yearly production figure comes from the external
PVGIS API (with a deterministic `peak_power * 1000` fallback), so it enters
the model as the oracle parameter `Y`; the geocoding call only feeds that same
external request and the roof angle/orientation arguments of
`calculate_savings` are only forwarded to it, so neither appears in the local
arithmetic. -/

/-- Python's `round` to the nearest integer, ties to even (`Rat.floor` is the
executable floor on `ℚ`; away from ties, nearest = `floor (x + 1/2)`). -/
def rdHalfEven (x : ℚ) : ℤ :=
  if x - Rat.floor x = 1 / 2 then
    (if 2 ∣ Rat.floor x then Rat.floor x else Rat.floor x + 1)
  else Rat.floor (x + 1 / 2)

/-- Python's `round(x, d)`. -/
def roundTo (d : Nat) (x : ℚ) : ℚ :=
  (rdHalfEven (x * 10 ^ d) : ℚ) / 10 ^ d

/-- `SolarCalculator._calculate_system_size`: `round(consumption / 1000, 2)`. -/
def calculateSystemSize (consumption : ℚ) : ℚ :=
  roundTo 2 (consumption / 1000)

/-- `SolarCalculator._calculate_financial_savings`. -/
structure FinancialSavings where
  self_consumption_savings : ℚ
  feed_in_revenue : ℚ
  total_savings : ℚ
deriving DecidableEq, Repr

def calculateFinancialSavings (production consumption : ℚ) : FinancialSavings :=
  let selfConsumption := min production consumption
  let gridFeedIn := max 0 (production - consumption)
  { self_consumption_savings := roundTo 2 (selfConsumption * (32 / 100)),
    feed_in_revenue := roundTo 2 (gridFeedIn * (8 / 100)),
    total_savings := roundTo 2 (selfConsumption * (32 / 100) + gridFeedIn * (8 / 100)) }

/-- `SolarCalculator._calculate_environmental_impact`. -/
structure EnvironmentalImpact where
  co2_savings : ℚ
  trees_equivalent : ℚ
deriving DecidableEq, Repr

def calculateEnvironmentalImpact (production : ℚ) : EnvironmentalImpact :=
  { co2_savings := roundTo 2 (production * (420 / 1000)),
    trees_equivalent := roundTo 1 (production * (420 / 1000) / 20) }

/-- The `assumptions` entry the solar agent adds to a simplified calculation. -/
structure Assumptions where
  roof_angle : ℚ
  orientation : String
  minimum_roof_area : ℚ
deriving DecidableEq, Repr

/-- The `roof_parameters` entry the solar agent adds to a detailed calculation. -/
structure RoofParameters where
  area : ℚ
  angle : ℚ
  orientation : String
deriving DecidableEq, Repr

/-- The calculation dictionary: the keys produced by
`SolarCalculator.calculate_savings` plus those the solar agent adds afterwards
(`calculation_type`, and exactly one of `assumptions`/`roof_parameters`;
`none` models an absent key). -/
structure SavingsCalc where
  system_size : ℚ
  yearly_production : ℚ
  consumption_coverage : ℚ
  financial_savings : FinancialSavings
  environmental_impact : EnvironmentalImpact
  calculation_type : String := ""
  assumptions : Option Assumptions := none
  roof_parameters : Option RoofParameters := none
deriving DecidableEq, Repr

/-- `SolarCalculator.calculate_savings(consumption, location, roof_angle,
orientation)` with the externally obtained yearly production `Y`. -/
def calculateSavings (Y consumption : ℚ) : SavingsCalc :=
  { system_size := calculateSystemSize consumption,
    yearly_production := Y,
    consumption_coverage := if 0 < consumption then Y / consumption * 100 else 0,
    financial_savings := calculateFinancialSavings Y consumption,
    environmental_impact := calculateEnvironmentalImpact Y }

/-- Python truthiness of an optional numeric argument (`None` and `0` falsy). -/
def pyTruthyQ : Option ℚ → Bool
  | none => false
  | some q => !(q == 0)

/-- Python truthiness of an optional string argument (`None` and `""` falsy). -/
def pyTruthyS : Option String → Bool
  | none => false
  | some v => !(v == "")

/-- Result of the `calculate_solar_system` capability: `ok c` models
`{"success": True, "calculation": {"text_summary": …, "results": c}}` (the
text summary is a rendering of `c`), and `insufficientArea ra na` models
`{"success": False, "error": f"Die verfügbare Dachfläche von {ra}m² ist zu
klein für die benötigte Anlagengröße (Minimum: {na}m²)"}` — the interpolated
message carries both the supplied roof area and the minimum needed area. -/
inductive SolarResult where
  | ok (results : SavingsCalc)
  | insufficientArea (roofArea neededArea : ℚ)
deriving DecidableEq, Repr

/-- `SolarAgent.calculate_solar_system`.  `is_simplified = not all([roof_area,
roof_angle, orientation])` is Python-truthiness over the optional arguments;
in the detailed branch all three are necessarily present (and truthy), so the
`getD` defaults are never used. -/
def calculate_solar_system (Y : ℚ) (yearly_consumption : ℚ) (_address : String)
    (roof_area roof_angle : Option ℚ) (orientation : Option String) : SolarResult :=
  let calculation := calculateSavings Y yearly_consumption
  let isSimplified :=
    !(pyTruthyQ roof_area && pyTruthyQ roof_angle && pyTruthyS orientation)
  let neededArea := calculation.system_size * (5 / 2)
  if isSimplified then
    .ok { calculation with
          calculation_type := "simplified",
          assumptions := some { roof_angle := 35, orientation := "south",
                                minimum_roof_area := neededArea } }
  else
    let ra := roof_area.getD 0
    if ra < neededArea then
      .insufficientArea ra neededArea
    else
      .ok { calculation with
            calculation_type := "detailed",
            roof_parameters := some { area := ra, angle := roof_angle.getD 0,
                                      orientation := orientation.getD "" } }

/-! ### BaseAgent (`src/services/agents/base_agent.py`) -/

/-- A conversation-history entry: `{role, content}` plus the optional
`name` key of function-result messages and the optional `agent` tag the
orchestrator adds to assistant messages. -/
structure Msg where
  role : String
  content : String
  agent : Option String := none
  name : Option String := none
deriving DecidableEq, Repr

/-- What one OpenAI chat completion yields, as `BaseAgent._handle_response`
reads it: either plain message content or a function call.  A function call
carries its name and its JSON-encoded arguments after `json.loads`: `none`
models arguments that fail to decode (`JSONDecodeError`), `some args` the
decoded object. -/
inductive ProviderResp where
  | content (text : String)
  | functionCall (funcName : String) (args : Option Dict)

/-- `BaseAgent.max_interaction_depth`, set to 5 in `BaseAgent.__init__`. -/
abbrev maxInteractionDepth : Nat := 5

/-- `BaseAgent.process(message, conversation_history, depth)` together with
`_handle_response`/`_handle_function_call`, which it directly calls.

* the provider `P` maps the full prompt context (system prompt + history +
  user message) to one response — an oracle for the external OpenAI service;
* `E funcName args` models `getattr(self, function_name)(**arguments)` for a
  non-transfer function: `none` when `hasattr` fails (the "Funktion … nicht
  verfügbar" branch), otherwise the JSON dump of the capability result;
* the returned triple is (response dictionary, final conversation history —
  the code appends function results to the shared history list —, number of
  provider invocations).

A `transfer_to_*` call returns the handoff dictionary immediately; any other
known function is executed, its result appended to the history, and `process`
re-invoked at `depth + 1`, so the recursion is bounded by
`maxInteractionDepth`.

The recursion is phrased structurally over `gas = maxInteractionDepth -
depth` (see `baseAgentProcess`): `gas` hits 0 exactly when `depth ≥
maxInteractionDepth`, and the 0 case returns the very dictionary the depth
guard produces, so the wrapper computes exactly the source function. -/
def baseAgentProcessAux (P : List Msg → ProviderResp)
    (E : String → Dict → Option String) (agentName sysPrompt : String) :
    Nat → String → List Msg → Nat → Dict × List Msg × Nat
  | 0, _message, hist, _depth =>
      ([("type", .s "error"), ("content", .s "Maximale Verarbeitungstiefe erreicht.")],
       hist, 0)
  | gas + 1, message, hist, depth =>
    if maxInteractionDepth ≤ depth then
      ([("type", .s "error"), ("content", .s "Maximale Verarbeitungstiefe erreicht.")],
       hist, 0)
    else
      match P ({ role := "system", content := sysPrompt } ::
               hist ++ [{ role := "user", content := message }]) with
      | .content text =>
          ([("type", .s "message"), ("content", .s text), ("agent", .s agentName)],
           hist, 1)
      | .functionCall funcName argsOpt =>
          match argsOpt with
          | none =>
              ([("type", .s "error"),
                ("content", .s "Fehler bei der Verarbeitung der Funktionsargumente")],
               hist, 1)
          | some args =>
              if funcName.startsWith "transfer_to_" then
                ([("type", .s "handoff"),
                  ("target_agent", .s (funcName.replace "transfer_to_" "")),
                  ("reason", (dlookup args "reason").getD (.s "Nicht spezifiziert")),
                  ("context", (dlookup args "context").getD (.dict []))],
                 hist, 1)
              else
                match E funcName args with
                | some functionResult =>
                    let hist1 := hist ++
                      [{ role := "function", content := functionResult,
                         name := some funcName }]
                    let rec1 := baseAgentProcessAux P E agentName sysPrompt gas
                      (s!"Verarbeite Ergebnis von {funcName}") hist1 (depth + 1)
                    (rec1.1, rec1.2.1, rec1.2.2 + 1)
                | none =>
                    ([("type", .s "error"),
                      ("content", .s s!"Funktion {funcName} nicht verfügbar")],
                     hist, 1)

/-- `BaseAgent.process(message, conversation_history, depth)`; see
`baseAgentProcessAux`. -/
def baseAgentProcess (P : List Msg → ProviderResp) (E : String → Dict → Option String)
    (agentName sysPrompt : String) (message : String) (hist : List Msg)
    (depth : Nat) : Dict × List Msg × Nat :=
  baseAgentProcessAux P E agentName sysPrompt (maxInteractionDepth - depth)
    message hist depth

/-! ### Orchestrator (`src/services/orchestrator.py`)

Per-user state dictionaries are modelled as total functions from `user_id`
(missing keys are explicit `Option`s / empty lists, matching the lazy
creation in `_get_conversation_history` and friends).  `Orchestrator.agents`
always holds exactly `solar_agent` and `calendar_agent`. -/

/-- `extracted_context` / the `context` dictionaries: string facts by key. -/
abbrev Ctx := List (String × String)

/-- First binding of `k` in a string/string association list. -/
def lookupS : Ctx → String → Option String
  | [], _ => none
  | p :: rest, k => if p.1 = k then some p.2 else lookupS rest k

/-- Python `dict.update`: keys already present are overwritten in place,
new keys are appended in the update's order. -/
def dictUpdate (c f : Ctx) : Ctx :=
  (c.map fun p => match lookupS f p.1 with | some v => (p.1, v) | none => p) ++
    f.filter fun p => (lookupS c p.1).isNone

/-- One entry of `handoff_history` (`Orchestrator._record_handoff`); the
timestamp is `datetime.now(...).isoformat()`, opaque here. -/
structure HandoffEntry where
  timestamp : String
  fromAgent : String
  toAgent : String
  reason : String
deriving DecidableEq, Repr

/-- What an agent's `process()` returns to the orchestrator — the three
dictionary shapes produced by `BaseAgent` (see `AgentResp.toDict`). -/
inductive AgentResp where
  | message (content agentName : String)
  | error (content : String)
  | handoff (targetAgent reason : String) (ctx : PyVal)

/-- The literal dictionary corresponding to an `AgentResp` (as built in
`BaseAgent._handle_response` / `_handle_function_call`). -/
def AgentResp.toDict : AgentResp → Dict
  | .message content agentName =>
      [("type", .s "message"), ("content", .s content), ("agent", .s agentName)]
  | .error content =>
      [("type", .s "error"), ("content", .s content)]
  | .handoff targetAgent reason ctx =>
      [("type", .s "handoff"), ("target_agent", .s targetAgent),
       ("reason", .s reason), ("context", ctx)]

/-- `response["type"]`. -/
def AgentResp.rtype : AgentResp → String
  | .message _ _ => "message"
  | .error _ => "error"
  | .handoff _ _ _ => "handoff"

/-- `response.get("content", "")`. -/
def AgentResp.contentD : AgentResp → String
  | .message content _ => content
  | .error content => content
  | .handoff _ _ _ => ""

/-- The orchestrator's per-user state dictionaries. -/
structure OrchState where
  conversations : String → List Msg
  currentAgent : String → Option String
  handoffHistory : String → List HandoffEntry
  context : String → Option Ctx

/-- Pointwise update of a per-user map. -/
def updMap {α : Type} (m : String → α) (u : String) (v : α) : String → α :=
  fun x => if x = u then v else m x

/-- The keys of `Orchestrator.agents`. -/
def registeredAgents : List String := ["solar_agent", "calendar_agent"]

/-- `Orchestrator.max_handoffs`. -/
abbrev maxHandoffs : Nat := 5

/-- The oracles `process_message` interacts with:

* `agentProcess agentId message history` — the outcome (and the history as
  mutated by appended function results) of `self.agents[agentId].process(...)`;
  `BaseAgent.process` catches every exception, so it always returns a value;
* `extractContactInfo` — `Orchestrator._extract_contact_info`, a pure regex
  scan of the message text;
* `detectInitialAgent` — `Orchestrator._detect_initial_agent`, the pure
  keyword matching used for a first-contact user (it returns `solar_agent` or
  `calendar_agent`). -/
structure Collaborators where
  agentProcess : String → String → List Msg → AgentResp × List Msg
  extractContactInfo : String → Ctx
  detectInitialAgent : String → String

/-- `str(KeyError(k))` interpolated by the `except` handler at the bottom of
`process_message`. -/
def keyErrorDict (k : String) : Dict :=
  [("type", .s "error"), ("content", .s s!"Ein Fehler ist aufgetreten: \x27{k}\x27")]

/-- `Orchestrator._handle_handoff`: refuse beyond the transfer ceiling,
reject unknown targets, otherwise record the handoff and switch the active
agent.  Note the two error dictionaries carry no `"agent"` key. -/
def handleHandoff (now : String) (targetAgent reason : String)
    (user currentAgentId : String) (st : OrchState) : Dict × OrchState :=
  if maxHandoffs ≤ (st.handoffHistory user).length then
    ([("type", .s "error"),
      ("content", .s "Zu viele Agentenübergaben. Bitte starten Sie eine neue Anfrage.")],
     st)
  else if !registeredAgents.contains targetAgent then
    ([("type", .s "error"),
      ("content", .s "Interner Fehler bei der Agentenübergabe.")],
     st)
  else
    let entry : HandoffEntry :=
      { timestamp := now, fromAgent := currentAgentId,
        toAgent := targetAgent, reason := reason }
    let st1 := { st with
      handoffHistory := updMap st.handoffHistory user (st.handoffHistory user ++ [entry]) }
    let st2 := { st1 with
      currentAgent := updMap st1.currentAgent user (some targetAgent) }
    ([("type", .s "message"),
      ("content", .s s!"Übergabe an {targetAgent} wegen: {reason}"),
      ("agent", .s targetAgent)],
     st2)

/-- `Orchestrator.process_message(message, context, user_id)`.  `now` stands
for `datetime.now(...)` at this call.  The two `self.agents[...]`
subscripts can raise `KeyError`; the surrounding `try` turns that into the
error envelope (`keyErrorDict`), with all state mutations made up to that
point kept — exactly as in the source, where the per-user lists are mutated
in place before the exception is raised.  On the handoff path the final
`return new_response` hands the second agent's raw response dictionary to the
caller; only the non-handoff path wraps the response in the
`{type, content, agent, context}` envelope. -/
def processMessage (C : Collaborators) (now message : String) (ctxArg : Option Ctx)
    (user : String) (st : OrchState) : Dict × OrchState :=
  let hist0 := st.conversations user
  let stored := (st.context user).getD []
  let contactInfo := C.extractContactInfo message
  let stored1 := if contactInfo.isEmpty then stored else dictUpdate stored contactInfo
  let st1 := if contactInfo.isEmpty then st
             else { st with context := updMap st.context user (some stored1) }
  let hist1 := hist0 ++ [{ role := "user", content := message }]
  let st2 := { st1 with conversations := updMap st1.conversations user hist1 }
  let resolved : String × OrchState :=
    match st2.currentAgent user with
    | some a => (a, st2)
    | none =>
        let a := C.detectInitialAgent message
        (a, { st2 with currentAgent := updMap st2.currentAgent user (some a) })
  let currentAgentId := resolved.1
  let st3 := resolved.2
  if registeredAgents.contains currentAgentId then
    let ctxFinal :=
      match ctxArg with
      | some c => if c.isEmpty then stored1 else dictUpdate c stored1
      | none => stored1
    let invoked := C.agentProcess currentAgentId message hist1
    let response := invoked.1
    let hist2 := invoked.2
    let st4 := { st3 with conversations := updMap st3.conversations user hist2 }
    match response with
    | .handoff targetAgent reason _hctx =>
        let handled := handleHandoff now targetAgent reason user currentAgentId st4
        let handoffResponse := handled.1
        let st5 := handled.2
        let hist3 := hist2 ++
          [{ role := "system",
             content := match dlookup handoffResponse "content" with
                        | some (.s c) => c
                        | _ => "" }]
        let st6 := { st5 with conversations := updMap st5.conversations user hist3 }
        match dlookup handoffResponse "agent" with
        | some (.s newAgentId) =>
            if registeredAgents.contains newAgentId then
              let invoked2 := C.agentProcess newAgentId message hist3
              let newResponse := invoked2.1
              let hist4 := invoked2.2
              let st7 := { st6 with conversations := updMap st6.conversations user hist4 }
              let hist5 := hist4 ++
                [{ role := "assistant", content := newResponse.contentD,
                   agent := some newAgentId }]
              let st8 := { st7 with conversations := updMap st7.conversations user hist5 }
              (newResponse.toDict, st8)
            else (keyErrorDict newAgentId, st6)
        | _ => (keyErrorDict "agent", st6)
    | _ =>
        let hist3 := hist2 ++
          [{ role := "assistant", content := response.contentD,
             agent := some currentAgentId }]
        let st5 := { st4 with conversations := updMap st4.conversations user hist3 }
        ([("type", .s response.rtype), ("content", .s response.contentD),
          ("agent", .s currentAgentId),
          ("context", .dict (ctxFinal.map fun p => (p.1, .s p.2)))],
         st5)
  else (keyErrorDict currentAgentId, st3)

/-! ## Theorems -/

/-! ### C4: business-hours rejection without a backing query -/

lemma serviceCheck_hour_reject (d : DateTime) (store : List Event)
    (h : ¬(9 ≤ d.hour ∧ d.hour < 17)) :
    serviceCheckAvailability d store =
      { result := [("available", .b false),
                   ("message", .s "Termine sind nur zwischen 9:00 und 17:00 Uhr möglich.")],
        queried := false } := by
  unfold serviceCheckAvailability
  have hb : (9 ≤ d.hour && d.hour < 17) = false := by
    rcases Nat.lt_or_ge d.hour 9 with h1 | h1
    · simp [Nat.not_le.mpr h1]
    · have h2 : ¬d.hour < 17 := fun h2 => h ⟨h1, h2⟩
      simp [h2]
  simp [hb]

lemma serviceCheck_weekday_reject (d : DateTime) (store : List Event)
    (h1 : 9 ≤ d.hour ∧ d.hour < 17) (h2 : 5 ≤ d.weekday) :
    serviceCheckAvailability d store =
      { result := [("available", .b false),
                   ("message", .s "Termine sind nur von Montag bis Freitag möglich.")],
        queried := false } := by
  unfold serviceCheckAvailability
  simp [h1.1, h1.2, h2]

/-- Claim C4: for every datetime outside Monday–Friday 09:00–17:00,
`CalendarService.check_availability` returns `available: false` without
issuing any query to the backing calendar store. -/
theorem claim_C4 (d : DateTime) (store : List Event)
    (h : ¬(d.weekday < 5 ∧ 9 ≤ d.hour ∧ d.hour < 17)) :
    (serviceCheckAvailability d store).queried = false ∧
    dlookup (serviceCheckAvailability d store).result "available" = some (.b false) := by
  by_cases h1 : 9 ≤ d.hour ∧ d.hour < 17
  · have h2 : 5 ≤ d.weekday := by
      rcases Nat.lt_or_ge d.weekday 5 with h3 | h3
      · exact absurd ⟨h3, h1⟩ h
      · exact h3
    rw [serviceCheck_weekday_reject d store h1 h2]
    exact ⟨rfl, rfl⟩
  · rw [serviceCheck_hour_reject d store h1]
    exact ⟨rfl, rfl⟩

/-- Witness for C4 at Saturday 2026-10-17 10:00 with a nonempty store. -/
theorem claim_C4_witness :
    ¬((⟨2026, 10, 17, 10, 0⟩ : DateTime).weekday < 5 ∧
      9 ≤ (⟨2026, 10, 17, 10, 0⟩ : DateTime).hour ∧
      (⟨2026, 10, 17, 10, 0⟩ : DateTime).hour < 17) ∧
    (serviceCheckAvailability ⟨2026, 10, 17, 10, 0⟩ [⟨0, 60⟩]).queried = false ∧
    dlookup (serviceCheckAvailability ⟨2026, 10, 17, 10, 0⟩ [⟨0, 60⟩]).result
      "available" = some (.b false) :=
  ⟨by decide, claim_C4 ⟨2026, 10, 17, 10, 0⟩ [⟨0, 60⟩] (by decide)⟩

/-! ### C10: the agent-level availability check tests dict truthiness -/

lemma serviceCheck_result_ne_nil (d : DateTime) (store : List Event) :
    (serviceCheckAvailability d store).result.isEmpty = false := by
  unfold serviceCheckAvailability
  split
  · rfl
  · split
    · rfl
    · dsimp only
      split
      · rfl
      · rfl

/-- Claim C10: within business hours, `CalendarAgent.check_availability`
reports `available: true` no matter what the service's availability result
said — `if not is_available:` tests the result dictionary's truthiness, which
is always truthy, so the already-booked branch is never taken. -/
theorem claim_C10 (d : DateTime) (store : List Event) (alternatives : PyVal)
    (h : isBusinessHours d = true) :
    calendarAgentCheckAvailability d store alternatives =
      [("available", .b true), ("datetime", .time d)] := by
  simp [calendarAgentCheckAvailability, h, serviceCheck_result_ne_nil]

/-- Witness for C10 at Monday 2026-10-12 10:00 with a store that already has a
conflicting event at that very slot: the service-level check says
`available: false`, the agent still reports `available: true`. -/
theorem claim_C10_witness :
    isBusinessHours ⟨2026, 10, 12, 10, 0⟩ = true ∧
    dlookup (serviceCheckAvailability ⟨2026, 10, 12, 10, 0⟩
        [⟨DateTime.toMin ⟨2026, 10, 12, 10, 0⟩,
          DateTime.toMin ⟨2026, 10, 12, 10, 0⟩ + 60⟩]).result "available" =
      some (.b false) ∧
    calendarAgentCheckAvailability ⟨2026, 10, 12, 10, 0⟩
        [⟨DateTime.toMin ⟨2026, 10, 12, 10, 0⟩,
          DateTime.toMin ⟨2026, 10, 12, 10, 0⟩ + 60⟩] (.dict []) =
      [("available", .b true), ("datetime", .time ⟨2026, 10, 12, 10, 0⟩)] :=
  ⟨by decide, by rfl,
   claim_C10 ⟨2026, 10, 12, 10, 0⟩
     [⟨DateTime.toMin ⟨2026, 10, 12, 10, 0⟩,
       DateTime.toMin ⟨2026, 10, 12, 10, 0⟩ + 60⟩] (.dict []) (by decide)⟩

/-! ### C3: create_event re-checks availability and never double-books -/

lemma serviceCheck_available (d : DateTime) (store : List Event)
    (h1 : d.weekday < 5) (h2 : 9 ≤ d.hour) (h3 : d.hour < 17)
    (h4 : listOverlapping store (d.toMin - 30) (d.toMin + 60 + 30) = []) :
    serviceCheckAvailability d store =
      { result := [("available", .b true),
                   ("start", .n d.toMin), ("end", .n (d.toMin + 60))],
        queried := true } := by
  unfold serviceCheckAvailability
  have h5 : ¬5 ≤ d.weekday := Nat.not_le.mpr h1
  simp [h2, h3, h5, h4]

lemma serviceCheck_booked (d : DateTime) (store : List Event)
    (h1 : d.weekday < 5) (h2 : 9 ≤ d.hour) (h3 : d.hour < 17)
    (h4 : listOverlapping store (d.toMin - 30) (d.toMin + 60 + 30) ≠ []) :
    serviceCheckAvailability d store =
      { result := [("available", .b false),
                   ("message", .s "Dieser Termin ist bereits vergeben.")],
        queried := true } := by
  unfold serviceCheckAvailability
  have h5 : ¬5 ≤ d.weekday := Nat.not_le.mpr h1
  simp [h2, h3, h5, h4]

/-- Claim C3: `CalendarService.create_event` re-checks availability
immediately before inserting: (i) whenever the check reports the slot
unavailable, that unavailability result is returned and the store is
unchanged; (ii) booking the same in-hours free slot twice in sequence makes
the first call succeed and insert the event, while the second call observes
"Dieser Termin ist bereits vergeben." and inserts nothing. -/
theorem claim_C3 (d : DateTime) (store : List Event) :
    (pyTruthy (dlookup (serviceCheckAvailability d store).result "available") = false →
      createEvent d store = ((serviceCheckAvailability d store).result, store)) ∧
    (d.weekday < 5 → 9 ≤ d.hour → d.hour < 17 →
      listOverlapping store (d.toMin - 30) (d.toMin + 60 + 30) = [] →
      dlookup (createEvent d store).1 "success" = some (.b true) ∧
      (createEvent d store).2 = store ++ [⟨d.toMin, d.toMin + 60⟩] ∧
      dlookup (createEvent d (createEvent d store).2).1 "available" = some (.b false) ∧
      dlookup (createEvent d (createEvent d store).2).1 "message" =
        some (.s "Dieser Termin ist bereits vergeben.") ∧
      (createEvent d (createEvent d store).2).2 = (createEvent d store).2) := by
  constructor
  · intro h
    unfold createEvent
    simp [h]
  · intro h1 h2 h3 h4
    have hfirst : createEvent d store =
        ([("success", .b true),
          ("id", .s "external-event-id"), ("link", .s "external-event-link"),
          ("start", .n d.toMin), ("end", .n (d.toMin + 60))],
         store ++ [⟨d.toMin, d.toMin + 60⟩]) := by
      unfold createEvent
      rw [serviceCheck_available d store h1 h2 h3 h4]
      rfl
    have hover : listOverlapping (store ++ [⟨d.toMin, d.toMin + 60⟩])
        (d.toMin - 30) (d.toMin + 60 + 30) ≠ [] := by
      unfold listOverlapping at h4 ⊢
      rw [List.filter_append, h4, List.nil_append]
      have hlt : d.toMin < d.toMin + 60 + 30 := by omega
      have hlt2 : d.toMin - 30 < d.toMin + 60 := by omega
      simp [hlt, hlt2]
    have hsecond : createEvent d (store ++ [⟨d.toMin, d.toMin + 60⟩]) =
        ([("available", .b false),
          ("message", .s "Dieser Termin ist bereits vergeben.")],
         store ++ [⟨d.toMin, d.toMin + 60⟩]) := by
      unfold createEvent
      rw [serviceCheck_booked d _ h1 h2 h3 hover]
      rfl
    rw [hfirst]
    refine ⟨rfl, rfl, ?_, ?_, ?_⟩ <;> rw [hsecond] <;> rfl

/-- Witness for C3 at the free slot Monday 2026-10-12 10:00 over an empty
store: the second, identical booking attempt observes "already booked". -/
theorem claim_C3_witness :
    pyTruthy (dlookup (serviceCheckAvailability ⟨2026, 10, 17, 11, 0⟩ []).result
        "available") = false ∧
    createEvent ⟨2026, 10, 17, 11, 0⟩ [] =
      ((serviceCheckAvailability ⟨2026, 10, 17, 11, 0⟩ []).result, []) ∧
    dlookup (createEvent ⟨2026, 10, 12, 10, 0⟩ []).1 "success" = some (.b true) ∧
    dlookup (createEvent ⟨2026, 10, 12, 10, 0⟩
        (createEvent ⟨2026, 10, 12, 10, 0⟩ []).2).1 "available" = some (.b false) :=
  ⟨by decide,
   (claim_C3 ⟨2026, 10, 17, 11, 0⟩ []).1 (by decide),
   ((claim_C3 ⟨2026, 10, 12, 10, 0⟩ []).2 (by decide) (by decide) (by decide) rfl).1,
   (((claim_C3 ⟨2026, 10, 12, 10, 0⟩ []).2 (by decide) (by decide) (by decide) rfl).2.2).1⟩

/-! ### C5 and C6: simplified vs detailed solar calculation -/

/-- The `calculation_type` tag of a successful solar-capability result. -/
def SolarResult.tag : SolarResult → Option String
  | .ok c => some c.calculation_type
  | .insufficientArea _ _ => none

/-- Whether a successful result carries an `assumptions` key. -/
def SolarResult.hasAssumptions : SolarResult → Bool
  | .ok c => c.assumptions.isSome
  | .insufficientArea _ _ => false

/-- Whether the capability returned `{"success": True, …}`. -/
def SolarResult.isSuccess : SolarResult → Bool
  | .ok _ => true
  | .insufficientArea _ _ => false

/-- Counterexample to C5 as stated: with all of `roof_area` (100),
`roof_angle` (0, a flat roof) and `orientation` ("south") supplied and the
roof area amply sufficient (minimum is 10 m² for 4000 kWh), the result is
still tagged "simplified" and carries an `assumptions` key (recording
`roof_angle 35`, not the supplied 0), because `not all([roof_area,
roof_angle, orientation])` treats the falsy value `0` as missing. -/
theorem claim_C5_counterexample :
    calculateSystemSize 4000 * (5 / 2) ≤ (100 : ℚ) ∧
    (calculate_solar_system 4000 4000 "Berlin" (some 100) (some 0) (some "south")).tag =
      some "simplified" ∧
    (calculate_solar_system 4000 4000 "Berlin" (some 100) (some 0) (some "south")).hasAssumptions =
      true := by
  refine ⟨by with_unfolding_all decide, ?_, ?_⟩ <;> rfl

/-- Claim C5 (amended): with only `yearly_consumption` and `address`, the
result is tagged "simplified" with assumptions `roof_angle 35`, `orientation
"south"` and minimum roof area `system_size × 2.5`; with all of `roof_area`,
`roof_angle` and `orientation` supplied *and truthy* (nonzero area and angle,
nonempty orientation — Python truthiness makes `0`/`""` count as missing) and
`roof_area` sufficient, the result is tagged "detailed" with no `assumptions`
key. -/
theorem claim_C5_amended (Y consumption : ℚ) (address : String) :
    calculate_solar_system Y consumption address none none none =
      .ok { calculateSavings Y consumption with
            calculation_type := "simplified",
            assumptions := some { roof_angle := 35, orientation := "south",
                                  minimum_roof_area := calculateSystemSize consumption * (5 / 2) } } ∧
    (∀ roofArea roofAngle : ℚ, ∀ orientation : String,
      roofArea ≠ 0 → roofAngle ≠ 0 → orientation ≠ "" →
      calculateSystemSize consumption * (5 / 2) ≤ roofArea →
      calculate_solar_system Y consumption address
          (some roofArea) (some roofAngle) (some orientation) =
        .ok { calculateSavings Y consumption with
              calculation_type := "detailed",
              roof_parameters := some { area := roofArea, angle := roofAngle,
                                        orientation := orientation } }) := by
  constructor
  · simp [calculate_solar_system, pyTruthyQ, pyTruthyS, calculateSavings,
      calculateSystemSize]
  · intro roofArea roofAngle orientation h1 h2 h3 h4
    have ht1 : pyTruthyQ (some roofArea) = true := by simp [pyTruthyQ, h1]
    have ht2 : pyTruthyQ (some roofAngle) = true := by simp [pyTruthyQ, h2]
    have ht3 : pyTruthyS (some orientation) = true := by simp [pyTruthyS, h3]
    have h5 : ¬roofArea < (calculateSavings Y consumption).system_size * (5 / 2) := by
      simp only [calculateSavings]
      exact not_lt.mpr h4
    simp [calculate_solar_system, ht1, ht2, ht3, h5]

/-- Witness for the amended C5 at `yearly_consumption 4000`, `roof_area 100`,
`roof_angle 30`, `orientation "south"` (minimum area 10 m²). -/
theorem claim_C5_witness :
    (100 : ℚ) ≠ 0 ∧ (30 : ℚ) ≠ 0 ∧ "south" ≠ "" ∧
    calculateSystemSize 4000 * (5 / 2) ≤ (100 : ℚ) ∧
    calculate_solar_system 4000 4000 "Berlin" none none none =
      .ok { calculateSavings 4000 4000 with
            calculation_type := "simplified",
            assumptions := some { roof_angle := 35, orientation := "south",
                                  minimum_roof_area := calculateSystemSize 4000 * (5 / 2) } } ∧
    calculate_solar_system 4000 4000 "Berlin" (some 100) (some 30) (some "south") =
      .ok { calculateSavings 4000 4000 with
            calculation_type := "detailed",
            roof_parameters := some { area := 100, angle := 30,
                                      orientation := "south" } } :=
  ⟨by decide, by decide, by decide, by with_unfolding_all decide,
   (claim_C5_amended 4000 4000 "Berlin").1,
   (claim_C5_amended 4000 4000 "Berlin").2 100 30 "south"
     (by decide) (by decide) (by decide) (by with_unfolding_all decide)⟩

/-- Counterexample to C6 as stated: `yearly_consumption 10000` implies a
25 m² minimum, and `roof_area 10` is supplied — but with `roof_angle` and
`orientation` missing the capability returns a *successful* "simplified"
calculation instead of the failure the claim requires (the minimum-area check
lives only in the detailed branch). -/
theorem claim_C6_counterexample :
    (10 : ℚ) < calculateSystemSize 10000 * (5 / 2) ∧
    (calculate_solar_system 10000 10000 "Berlin" (some 10) none none).isSuccess = true ∧
    (calculate_solar_system 10000 10000 "Berlin" (some 10) none none).tag =
      some "simplified" := by
  refine ⟨by with_unfolding_all decide, ?_, ?_⟩ <;> rfl

/-- Claim C6 (amended): whenever `roof_area`, `roof_angle` and `orientation`
are all supplied and truthy and the roof area is smaller than the implied
minimum (`system_size × 2.5`), the capability fails with the
insufficient-area error carrying that minimum, and does not return a
successful calculation; an undersized `roof_area` supplied *without* angle
and orientation is not rejected — the calculation succeeds as "simplified". -/
theorem claim_C6_amended (Y consumption : ℚ) (address : String)
    (roofArea roofAngle : ℚ) (orientation : String)
    (h1 : roofArea ≠ 0) (h2 : roofAngle ≠ 0) (h3 : orientation ≠ "")
    (h4 : roofArea < calculateSystemSize consumption * (5 / 2)) :
    calculate_solar_system Y consumption address
        (some roofArea) (some roofAngle) (some orientation) =
      .insufficientArea roofArea (calculateSystemSize consumption * (5 / 2)) ∧
    (calculate_solar_system Y consumption address
        (some roofArea) (some roofAngle) (some orientation)).isSuccess = false := by
  have ht1 : pyTruthyQ (some roofArea) = true := by simp [pyTruthyQ, h1]
  have ht2 : pyTruthyQ (some roofAngle) = true := by simp [pyTruthyQ, h2]
  have ht3 : pyTruthyS (some orientation) = true := by simp [pyTruthyS, h3]
  have h5 : roofArea < (calculateSavings Y consumption).system_size * (5 / 2) := by
    simpa [calculateSavings] using h4
  have heq : calculate_solar_system Y consumption address
      (some roofArea) (some roofAngle) (some orientation) =
      .insufficientArea roofArea (calculateSystemSize consumption * (5 / 2)) := by
    simp only [calculate_solar_system, ht1, ht2, ht3, Bool.and_self, Bool.not_true,
      Bool.false_eq_true, if_false, Option.getD_some]
    rw [if_pos h5]
    simp [calculateSavings]
  exact ⟨heq, by rw [heq]; rfl⟩

/-- Witness for the amended C6 at the spec's own numbers plus a truthy angle
and orientation: consumption 10000 (minimum 25 m²), `roof_area 10`. -/
theorem claim_C6_witness :
    (10 : ℚ) ≠ 0 ∧ (30 : ℚ) ≠ 0 ∧ "south" ≠ "" ∧
    (10 : ℚ) < calculateSystemSize 10000 * (5 / 2) ∧
    calculate_solar_system 9500 10000 "Berlin" (some 10) (some 30) (some "south") =
      .insufficientArea 10 (calculateSystemSize 10000 * (5 / 2)) :=
  ⟨by decide, by decide, by decide, by with_unfolding_all decide,
   (claim_C6_amended 9500 10000 "Berlin" 10 30 "south"
     (by decide) (by decide) (by decide) (by with_unfolding_all decide)).1⟩

/-! ### C8: no year rollforward on the booking path -/

lemma key_lt_of_year_lt (a b : DateTime) (ha : a.validFields) (hb : b.validFields)
    (h : a.year < b.year) : a.key < b.key := by
  obtain ⟨ha1, ha2, ha3, ha4, ha5, ha6⟩ := ha
  obtain ⟨hb1, hb2, hb3, hb4, hb5, hb6⟩ := hb
  unfold DateTime.key
  nlinarith [Nat.succ_le_of_lt h]

/-- Counterexample to C8 as stated: with the clock at 2026-10-12 12:00, the
parsed booking slot 2026-01-05 10:00 (a Monday, in business hours) lies in
the past, yet `CalendarAgent.book_appointment` books it unchanged: the
agent-level `_validate_datetime` performs no rollforward at all, and even
`CalendarService._validate_datetime` leaves it unchanged because its year is
not strictly before the current year. -/
theorem claim_C8_counterexample :
    (⟨2026, 1, 5, 10, 0⟩ : DateTime).key < (⟨2026, 10, 12, 12, 0⟩ : DateTime).key ∧
    serviceValidateDatetime ⟨2026, 10, 12, 12, 0⟩ ⟨2026, 1, 5, 10, 0⟩ =
      .ok ⟨2026, 1, 5, 10, 0⟩ ∧
    agentValidateDatetime ⟨2026, 1, 5, 10, 0⟩ = ⟨2026, 1, 5, 10, 0⟩ ∧
    (calendarAgentBookAppointment ⟨2026, 1, 5, 10, 0⟩ "max@test.de" "Max" []
        (.dict [])).1 = .booked ⟨2026, 1, 5, 10, 0⟩ "max@test.de" "Max" := by
  refine ⟨by decide, rfl, rfl, ?_⟩
  rfl

/-- Claim C8 (amended): only `CalendarService._validate_datetime` rolls years
forward, and only when the parsed year is strictly earlier than the current
year — then, provided the parsed month/day exists in the bumped years, the
result is exactly the next occurrence of that month/day/time that is not in
the past, while a Feb 29 whose bumped year has no Feb 29 raises "Ungültiges
Datum oder Zeit" (the `ValueError` of `dt.replace`).  A parsed datetime whose
year is the current year or later is returned unchanged even when it lies in
the past, and the booking path's validator
(`CalendarAgent._validate_datetime`) never rolls anything forward, so
past-dated slots can be silently accepted. -/
theorem claim_C8_amended (now d : DateTime)
    (hnow : now.validFields) (hd : d.validFields) :
    (d.year < now.year → d.day ≤ daysInMonth now.year d.month →
      d.day ≤ daysInMonth (now.year + 1) d.month →
      serviceValidateDatetime now d = .ok (specNextOccurrence now d) ∧
      now.key ≤ (specNextOccurrence now d).key) ∧
    (d.year < now.year → ¬d.day ≤ daysInMonth now.year d.month →
      serviceValidateDatetime now d = .error "Ungültiges Datum oder Zeit") ∧
    (d.year < now.year → d.day ≤ daysInMonth now.year d.month →
      ({ d with year := now.year } : DateTime).key < now.key →
      ¬d.day ≤ daysInMonth (now.year + 1) d.month →
      serviceValidateDatetime now d = .error "Ungültiges Datum oder Zeit") ∧
    (now.year ≤ d.year → serviceValidateDatetime now d = .ok d) ∧
    agentValidateDatetime d = d := by
  refine ⟨?_, ?_, ?_, ?_, rfl⟩
  · intro h hd1 hd2
    unfold serviceValidateDatetime replaceYear specNextOccurrence
    rw [if_pos h, if_pos hd1]
    dsimp only
    by_cases h2 : ({ d with year := now.year } : DateTime).key < now.key
    · rw [if_pos h2, if_pos h2, if_pos hd2]
      refine ⟨rfl, Nat.le_of_lt ?_⟩
      exact key_lt_of_year_lt now { d with year := now.year + 1 } hnow
        ⟨hd.1, hd.2.1, hd.2.2.1, hd.2.2.2.1, hd.2.2.2.2.1, hd.2.2.2.2.2⟩
        (Nat.lt_succ_self _)
    · rw [if_neg h2, if_neg h2]
      exact ⟨rfl, Nat.le_of_not_lt h2⟩
  · intro h hd1
    unfold serviceValidateDatetime replaceYear
    rw [if_pos h, if_neg hd1]
  · intro h hd1 h2 hd2
    unfold serviceValidateDatetime replaceYear
    rw [if_pos h, if_pos hd1]
    dsimp only
    rw [if_pos h2, if_neg hd2]
  · intro h
    unfold serviceValidateDatetime
    rw [if_neg (Nat.not_lt.mpr h)]

/-- Witness for the amended C8: with the clock at 2026-10-12 12:00, the
parsed slot 2024-03-15 14:30 (year strictly in the past, day valid in every
year) is rolled by the service-level validator to its next non-past
occurrence (2027, since the 2026 occurrence is already past); the parsed
slot 2024-02-29 10:00 raises "Ungültiges Datum oder Zeit" because 2026 has
no Feb 29; and the agent-level validator leaves the past date unchanged. -/
theorem claim_C8_witness :
    (⟨2026, 10, 12, 12, 0⟩ : DateTime).validFields ∧
    (⟨2024, 3, 15, 14, 30⟩ : DateTime).validFields ∧
    (2024 : Nat) < 2026 ∧ (15 : Nat) ≤ daysInMonth 2026 3 ∧
    (15 : Nat) ≤ daysInMonth 2027 3 ∧
    (serviceValidateDatetime ⟨2026, 10, 12, 12, 0⟩ ⟨2024, 3, 15, 14, 30⟩ =
        .ok (specNextOccurrence ⟨2026, 10, 12, 12, 0⟩ ⟨2024, 3, 15, 14, 30⟩) ∧
      (⟨2026, 10, 12, 12, 0⟩ : DateTime).key ≤
        (specNextOccurrence ⟨2026, 10, 12, 12, 0⟩ ⟨2024, 3, 15, 14, 30⟩).key) ∧
    ¬(29 : Nat) ≤ daysInMonth 2026 2 ∧
    serviceValidateDatetime ⟨2026, 10, 12, 12, 0⟩ ⟨2024, 2, 29, 10, 0⟩ =
      .error "Ungültiges Datum oder Zeit" ∧
    agentValidateDatetime ⟨2024, 3, 15, 14, 30⟩ = ⟨2024, 3, 15, 14, 30⟩ :=
  ⟨by decide, by decide, by decide, by decide, by decide,
   (claim_C8_amended ⟨2026, 10, 12, 12, 0⟩ ⟨2024, 3, 15, 14, 30⟩
     (by decide) (by decide)).1 (by decide) (by decide) (by decide),
   by decide,
   (claim_C8_amended ⟨2026, 10, 12, 12, 0⟩ ⟨2024, 2, 29, 10, 0⟩
     (by decide) (by decide)).2.1 (by decide) (by decide),
   (claim_C8_amended ⟨2026, 10, 12, 12, 0⟩ ⟨2024, 3, 15, 14, 30⟩
     (by decide) (by decide)).2.2.2.2⟩

/-! ### C9: the capability-call recursion is depth-bounded -/

lemma baseAgentProcessAux_calls_le (P : List Msg → ProviderResp)
    (E : String → Dict → Option String) (agentName sysPrompt : String) :
    ∀ (gas : Nat) (message : String) (hist : List Msg) (depth : Nat),
    (baseAgentProcessAux P E agentName sysPrompt gas message hist depth).2.2 ≤ gas := by
  intro gas
  induction gas with
  | zero => intro message hist depth; simp [baseAgentProcessAux]
  | succ gas ih =>
      intro message hist depth
      rw [baseAgentProcessAux]
      by_cases hdepth : maxInteractionDepth ≤ depth
      · rw [if_pos hdepth]; simp
      · rw [if_neg hdepth]
        cases P ({ role := "system", content := sysPrompt } ::
            hist ++ [{ role := "user", content := message }]) with
        | content text => simp
        | functionCall funcName argsOpt =>
            cases argsOpt with
            | none => simp
            | some args =>
                simp only
                by_cases htr : funcName.startsWith "transfer_to_" = true
                · rw [if_pos htr]; simp
                · rw [if_neg htr]
                  cases E funcName args with
                  | some functionResult =>
                      simp only
                      have hrec := ih (s!"Verarbeite Ergebnis von {funcName}")
                        (hist ++ [{ role := "function", content := functionResult,
                                    name := some funcName }]) (depth + 1)
                      omega
                  | none => simp

/-- Claim C9: a handler's `process` invoked at `depth ≥ 5` returns the
max-depth error without calling the capability provider (zero provider
invocations, history untouched), and — since each capability execution
re-invokes `process` at `depth + 1` — any capability-call chain makes at most
`5 - depth` provider calls, hence at most 5 from a fresh turn. -/
theorem claim_C9 (P : List Msg → ProviderResp) (E : String → Dict → Option String)
    (agentName sysPrompt message : String) (hist : List Msg) (depth : Nat) :
    (maxInteractionDepth ≤ depth →
      baseAgentProcess P E agentName sysPrompt message hist depth =
        ([("type", .s "error"),
          ("content", .s "Maximale Verarbeitungstiefe erreicht.")], hist, 0)) ∧
    (baseAgentProcess P E agentName sysPrompt message hist depth).2.2 ≤
      maxInteractionDepth - depth := by
  constructor
  · intro hdepth
    have h0 : maxInteractionDepth - depth = 0 := by omega
    rw [baseAgentProcess, h0, baseAgentProcessAux]
  · exact baseAgentProcessAux_calls_le P E agentName sysPrompt
      (maxInteractionDepth - depth) message hist depth

/-- Witness for C9 at depth 5 with a provider that always requests the
executable capability `calc` — the call is refused before any provider
invocation. -/
theorem claim_C9_witness :
    maxInteractionDepth ≤ 5 ∧
    baseAgentProcess (fun _ => .functionCall "calc" (some []))
        (fun _ _ => some "{}") "solar_agent" "prompt" "Hallo" [] 5 =
      ([("type", .s "error") , ("content", .s "Maximale Verarbeitungstiefe erreicht.")],
       [], 0) ∧
    (baseAgentProcess (fun _ => .functionCall "calc" (some []))
        (fun _ _ => some "{}") "solar_agent" "prompt" "Hallo" [] 5).2.2 ≤
      maxInteractionDepth - 5 :=
  ⟨by decide,
   (claim_C9 (fun _ => .functionCall "calc" (some []))
     (fun _ _ => some "{}") "solar_agent" "prompt" "Hallo" [] 5).1 (by decide),
   (claim_C9 (fun _ => .functionCall "calc" (some []))
     (fun _ _ => some "{}") "solar_agent" "prompt" "Hallo" [] 5).2⟩

/-! ### C7: the context merge is idempotent and last-write-wins per key -/

/-- The per-entry rewrite `dict.update` applies to the keys already stored. -/
def updEntry (f : Ctx) (p : String × String) : String × String :=
  match lookupS f p.1 with
  | some v => (p.1, v)
  | none => p

lemma dictUpdate_eq (c f : Ctx) :
    dictUpdate c f = c.map (updEntry f) ++ f.filter fun p => (lookupS c p.1).isNone := by
  unfold dictUpdate updEntry
  rfl

lemma lookupS_append (l1 l2 : Ctx) (k : String) :
    lookupS (l1 ++ l2) k =
      match lookupS l1 k with
      | some v => some v
      | none => lookupS l2 k := by
  induction l1 with
  | nil => rfl
  | cons p rest ih =>
      by_cases h : p.1 = k
      · simp [lookupS, h]
      · simp [lookupS, h, ih]

lemma lookupS_map_updEntry (c f : Ctx) (k : String) :
    lookupS (c.map (updEntry f)) k =
      match lookupS c k with
      | some v =>
          match lookupS f k with
          | some w => some w
          | none => some v
      | none => none := by
  induction c with
  | nil => rfl
  | cons p rest ih =>
      by_cases h : p.1 = k
      · subst h
        cases hf : lookupS f p.1 <;> simp [lookupS, updEntry, hf]
      · have h1 : (updEntry f p).1 = p.1 := by
          unfold updEntry; cases lookupS f p.1 <;> rfl
        simp only [List.map_cons, lookupS, h1, if_neg h, ih]

lemma lookupS_filter_isNone (c f : Ctx) (k : String) :
    lookupS (f.filter fun p => (lookupS c p.1).isNone) k =
      if (lookupS c k).isNone then lookupS f k else none := by
  induction f with
  | nil => simp [lookupS]
  | cons p rest ih =>
      by_cases h : p.1 = k
      · subst h
        cases hc : (lookupS c p.1).isNone
        · simp [List.filter, hc, ih, lookupS]
        · simp [List.filter, hc, ih, lookupS]
      · cases hc : (lookupS c p.1).isNone
        · simp only [List.filter, hc, ih]
          simp [lookupS, h]
        · simp only [List.filter, hc, ih, lookupS, if_neg h]

lemma mem_lookupS_isSome (f : Ctx) (p : String × String) (hp : p ∈ f) :
    (lookupS f p.1).isSome := by
  induction f with
  | nil => cases hp
  | cons q rest ih =>
      rcases List.mem_cons.mp hp with h | h
      · subst h; simp [lookupS]
      · by_cases hq : q.1 = p.1
        · simp [lookupS, hq]
        · simp [lookupS, hq, ih h]

lemma nodup_lookupS (f : Ctx) (hf : (f.map Prod.fst).Nodup)
    (p : String × String) (hp : p ∈ f) : lookupS f p.1 = some p.2 := by
  induction f with
  | nil => cases hp
  | cons q rest ih =>
      simp only [List.map_cons, List.nodup_cons] at hf
      rcases List.mem_cons.mp hp with h | h
      · subst h; simp [lookupS]
      · have hq : q.1 ≠ p.1 := by
          intro he
          exact hf.1 (he ▸ List.mem_map_of_mem Prod.fst h)
        simp [lookupS, hq, ih hf.2 h]

lemma lookupS_dictUpdate (c f : Ctx) (k : String) :
    lookupS (dictUpdate c f) k =
      match lookupS f k with
      | some v => some v
      | none => lookupS c k := by
  rw [dictUpdate_eq, lookupS_append, lookupS_map_updEntry, lookupS_filter_isNone]
  cases hc : lookupS c k <;> cases hf : lookupS f k <;> simp [hc, hf]

lemma updEntry_idem (f : Ctx) (p : String × String) :
    updEntry f (updEntry f p) = updEntry f p := by
  unfold updEntry
  cases h : lookupS f p.1 <;> simp [h]

/-- Claim C7: merging the same extracted facts twice leaves the stored context
unchanged after the second merge (`dict.update` is idempotent — the extracted
facts mapping has pairwise distinct keys), and a merge overwrites exactly the
keys present in the update, leaving every other key untouched (last-write-wins
per key). -/
theorem claim_C7 (c f : Ctx) :
    ((f.map Prod.fst).Nodup → dictUpdate (dictUpdate c f) f = dictUpdate c f) ∧
    (∀ k, lookupS (dictUpdate c f) k =
      match lookupS f k with
      | some v => some v
      | none => lookupS c k) := by
  constructor
  · intro hf
    rw [dictUpdate_eq c f, dictUpdate_eq]
    have hmapmap : ((c.map (updEntry f)).map (updEntry f)) = c.map (updEntry f) := by
      rw [List.map_map]
      exact List.map_congr_left fun p _ => updEntry_idem f p
    have hmapfilter :
        ((f.filter fun p => (lookupS c p.1).isNone).map (updEntry f)) =
          f.filter fun p => (lookupS c p.1).isNone := by
      have h1 : ((f.filter fun p => (lookupS c p.1).isNone).map (updEntry f)) =
          ((f.filter fun p => (lookupS c p.1).isNone).map id) :=
        List.map_congr_left fun p hp => by
          have hpf : p ∈ f := (List.mem_filter.mp hp).1
          have hlk := nodup_lookupS f hf p hpf
          simp [updEntry, hlk]
      rw [h1, List.map_id]
    have hfilter :
        (f.filter fun p =>
          (lookupS (c.map (updEntry f) ++
            f.filter fun q => (lookupS c q.1).isNone) p.1).isNone) = [] := by
      apply List.filter_eq_nil_iff.mpr
      intro p hp
      rw [← dictUpdate_eq, lookupS_dictUpdate]
      have hs := mem_lookupS_isSome f p hp
      cases hl : lookupS f p.1 with
      | none => rw [hl] at hs; cases hs
      | some v => simp
    rw [List.map_append, hmapmap, hmapfilter, hfilter, List.append_nil]
  · intro k
    exact lookupS_dictUpdate c f k

/-- Witness for C7: merging `{name: Max, email: max@test.de}` twice into
`{name: Alice, phone: 123}` equals merging it once, and the untouched key
`phone` keeps its stored value. -/
theorem claim_C7_witness :
    (([("name", "Max"), ("email", "max@test.de")] : Ctx).map Prod.fst).Nodup ∧
    dictUpdate (dictUpdate [("name", "Alice"), ("phone", "123")]
        [("name", "Max"), ("email", "max@test.de")])
        [("name", "Max"), ("email", "max@test.de")] =
      dictUpdate [("name", "Alice"), ("phone", "123")]
        [("name", "Max"), ("email", "max@test.de")] ∧
    lookupS (dictUpdate [("name", "Alice"), ("phone", "123")]
        [("name", "Max"), ("email", "max@test.de")]) "phone" =
      match lookupS [("name", "Max"), ("email", "max@test.de")] "phone" with
      | some v => some v
      | none => lookupS [("name", "Alice"), ("phone", "123")] "phone" :=
  ⟨by decide,
   (claim_C7 [("name", "Alice"), ("phone", "123")]
     [("name", "Max"), ("email", "max@test.de")]).1 (by decide),
   (claim_C7 [("name", "Alice"), ("phone", "123")]
     [("name", "Max"), ("email", "max@test.de")]).2 "phone"⟩

/-! ### C1: the handoff ceiling is terminal and mutation-free

When the ceiling is already reached, `_handle_handoff` returns the
`{"type": "error", …}` dictionary without an `"agent"` key; `process_message`
then evaluates `self.agents[handoff_response["agent"]]`, raising `KeyError`,
which the surrounding `try` converts into the error envelope — so the
caller sees a terminal error turn, and neither `current_agent` nor
`handoff_history` was touched. -/

/-- Claim C1: with the handoff log already at the ceiling (5), a further
`Handoff` outcome from the active handler makes `process_message` return a
terminal error outcome, leaves the active handler unchanged, and appends
nothing to the handoff log. -/
theorem claim_C1 (C : Collaborators) (now message : String) (ctxArg : Option Ctx)
    (user : String) (st : OrchState) (a targetAgent reason : String)
    (hctx : PyVal) (hist2 : List Msg)
    (hcur : st.currentAgent user = some a)
    (hreg : registeredAgents.contains a = true)
    (hceil : maxHandoffs ≤ (st.handoffHistory user).length)
    (hresp : C.agentProcess a message
        (st.conversations user ++ [{ role := "user", content := message }]) =
      (.handoff targetAgent reason hctx, hist2)) :
    dlookup (processMessage C now message ctxArg user st).1 "type" =
      some (.s "error") ∧
    (processMessage C now message ctxArg user st).2.currentAgent user = some a ∧
    (processMessage C now message ctxArg user st).2.handoffHistory user =
      st.handoffHistory user := by
  by_cases hce : (C.extractContactInfo message).isEmpty <;>
  · simp only [processMessage, handleHandoff, hce, if_true, if_false, Bool.false_eq_true,
      ite_true, ite_false, hcur, hreg, hresp, hceil, if_pos hceil]
    refine ⟨rfl, hcur, rfl⟩

/-- A collaborator oracle whose provider always requests a transfer to the
other agent (ping-pong), with no extractable contact facts. -/
def handoffBot : Collaborators where
  agentProcess := fun agentId _message hist =>
    (.handoff (if agentId = "solar_agent" then "calendar_agent" else "solar_agent")
      "Terminanfrage" (.dict []), hist)
  extractContactInfo := fun _ => []
  detectInitialAgent := fun _ => "solar_agent"

/-- A per-user state whose handoff log for every user already holds 5 entries
and whose active agent is the solar agent. -/
def stAtCeiling : OrchState where
  conversations := fun _ => []
  currentAgent := fun _ => some "solar_agent"
  handoffHistory := fun _ =>
    List.replicate 5 ⟨"2026-10-12T09:00:00", "solar_agent", "calendar_agent", "Terminanfrage"⟩
  context := fun _ => none

/-- Witness for C1 with the ping-pong provider and a log already at the
ceiling. -/
theorem claim_C1_witness :
    stAtCeiling.currentAgent "default" = some "solar_agent" ∧
    registeredAgents.contains "solar_agent" = true ∧
    maxHandoffs ≤ (stAtCeiling.handoffHistory "default").length ∧
    handoffBot.agentProcess "solar_agent" "Hallo"
        (stAtCeiling.conversations "default" ++ [{ role := "user", content := "Hallo" }]) =
      (.handoff "calendar_agent" "Terminanfrage" (.dict []),
       [{ role := "user", content := "Hallo" }]) ∧
    dlookup (processMessage handoffBot "t0" "Hallo" none "default" stAtCeiling).1
      "type" = some (.s "error") ∧
    (processMessage handoffBot "t0" "Hallo" none "default" stAtCeiling).2.currentAgent
      "default" = some "solar_agent" ∧
    (processMessage handoffBot "t0" "Hallo" none "default" stAtCeiling).2.handoffHistory
      "default" = stAtCeiling.handoffHistory "default" :=
  ⟨rfl, rfl, by decide, rfl,
   claim_C1 handoffBot "t0" "Hallo" none "default" stAtCeiling
     "solar_agent" "calendar_agent" "Terminanfrage" (.dict [])
     [{ role := "user", content := "Hallo" }] rfl rfl (by decide) rfl⟩

/-! ### C2: the caller-facing envelope on the handoff path -/

/-- A per-user state with the solar agent active and no prior history. -/
def stFresh : OrchState where
  conversations := fun _ => []
  currentAgent := fun _ => some "solar_agent"
  handoffHistory := fun _ => []
  context := fun _ => none

/-- Counterexample to C2 as stated: when the handler invoked after a handoff
itself returns a `Handoff` outcome (the ping-pong provider), `process_message`
returns that raw handoff dictionary — its `type` is `"handoff"`, not
`message`/`error`, and it has no `content` or `agent` key. -/
theorem claim_C2_counterexample :
    dlookup (processMessage handoffBot "t0" "Hallo" none "default" stFresh).1
      "type" = some (.s "handoff") ∧
    dlookup (processMessage handoffBot "t0" "Hallo" none "default" stFresh).1
      "content" = none ∧
    dlookup (processMessage handoffBot "t0" "Hallo" none "default" stFresh).1
      "agent" = none := by
  refine ⟨rfl, rfl, rfl⟩

lemma toDict_type_eq (r : AgentResp) :
    dlookup r.toDict "type" = some (.s r.rtype) := by
  cases r <;> rfl

/-- No raw agent-response dictionary carries all three of the envelope's
`content`, `agent` and `context` keys: message responses lack `context`,
error responses lack `agent` and `context`, handoff responses lack `content`
and `agent`. -/
lemma toDict_not_full_envelope (r : AgentResp) :
    ¬((dlookup r.toDict "content").isSome ∧ (dlookup r.toDict "agent").isSome ∧
      (dlookup r.toDict "context").isSome) := by
  cases r <;> simp [AgentResp.toDict, dlookup]

/-- Claim C2 (amended): when the active handler's response is not a handoff,
`process_message` returns the `{type, content, agent, context}` envelope with
`type` equal to the response type (`message` or `error`) and all four keys
present; when the response is a handoff (below the ceiling, to a registered
target), `process_message` returns the *new* handler's raw response
dictionary unchanged — its `type` echoes that response's type (so it is
`handoff` whenever the second handler also hands off), and it never contains
all three of the envelope's `content`, `agent` and `context` keys. -/
theorem claim_C2_amended (C : Collaborators) (now message : String)
    (ctxArg : Option Ctx) (user : String) (st : OrchState) (a : String)
    (hcur : st.currentAgent user = some a)
    (hreg : registeredAgents.contains a = true) :
    ((C.agentProcess a message
        (st.conversations user ++ [{ role := "user", content := message }])).1.rtype ≠
        "handoff" →
      ((C.agentProcess a message
          (st.conversations user ++ [{ role := "user", content := message }])).1.rtype =
            "message" ∨
        (C.agentProcess a message
          (st.conversations user ++ [{ role := "user", content := message }])).1.rtype =
            "error") ∧
      dlookup (processMessage C now message ctxArg user st).1 "type" =
        some (.s (C.agentProcess a message
          (st.conversations user ++ [{ role := "user", content := message }])).1.rtype) ∧
      (dlookup (processMessage C now message ctxArg user st).1 "content").isSome ∧
      (dlookup (processMessage C now message ctxArg user st).1 "agent").isSome ∧
      (dlookup (processMessage C now message ctxArg user st).1 "context").isSome) ∧
    (∀ (targetAgent reason : String) (hctx : PyVal) (hist2 : List Msg),
      C.agentProcess a message
          (st.conversations user ++ [{ role := "user", content := message }]) =
        (.handoff targetAgent reason hctx, hist2) →
      (st.handoffHistory user).length < maxHandoffs →
      registeredAgents.contains targetAgent = true →
      (processMessage C now message ctxArg user st).1 =
        ((C.agentProcess targetAgent message
          (hist2 ++ [{ role := "system", content := s!"Übergabe an {targetAgent} wegen: {reason}" }])).1).toDict ∧
      dlookup (processMessage C now message ctxArg user st).1 "type" =
        some (.s ((C.agentProcess targetAgent message
          (hist2 ++ [{ role := "system", content := s!"Übergabe an {targetAgent} wegen: {reason}" }])).1).rtype) ∧
      ¬((dlookup (processMessage C now message ctxArg user st).1 "content").isSome ∧
        (dlookup (processMessage C now message ctxArg user st).1 "agent").isSome ∧
        (dlookup (processMessage C now message ctxArg user st).1 "context").isSome)) := by
  constructor
  · intro hnh
    rcases hresp : C.agentProcess a message
        (st.conversations user ++ [{ role := "user", content := message }]) with ⟨resp, hist2⟩
    rw [hresp] at hnh
    cases resp with
    | handoff targetAgent reason hctx => exact absurd rfl hnh
    | message content agentName =>
        rw [hresp]
        by_cases hce : (C.extractContactInfo message).isEmpty <;>
        · simp only [processMessage, hce, if_true, if_false, Bool.false_eq_true,
            ite_true, ite_false, hcur, hreg, hresp]
          exact ⟨Or.inl rfl, rfl, rfl, rfl, rfl⟩
    | error content =>
        rw [hresp]
        by_cases hce : (C.extractContactInfo message).isEmpty <;>
        · simp only [processMessage, hce, if_true, if_false, Bool.false_eq_true,
            ite_true, ite_false, hcur, hreg, hresp]
          exact ⟨Or.inr rfl, rfl, rfl, rfl, rfl⟩
  · intro targetAgent reason hctx hist2 hresp hlt htarget
    have hnotceil : ¬maxHandoffs ≤ (st.handoffHistory user).length :=
      Nat.not_le.mpr hlt
    have hmem : targetAgent ∈ registeredAgents := by simpa using htarget
    have heq : (processMessage C now message ctxArg user st).1 =
        ((C.agentProcess targetAgent message
          (hist2 ++ [{ role := "system", content := s!"Übergabe an {targetAgent} wegen: {reason}" }])).1).toDict := by
      by_cases hce : (C.extractContactInfo message).isEmpty <;>
      · simp only [processMessage, handleHandoff, hce, if_true, if_false,
          Bool.false_eq_true, ite_true, ite_false, hcur, hreg, hresp,
          if_neg hnotceil, htarget, Bool.not_true, dlookup]
        simp [hmem]
    refine ⟨heq, ?_, ?_⟩
    · rw [heq]; exact toDict_type_eq _
    · rw [heq]; exact toDict_not_full_envelope _

/-- Witness for the amended C2: the non-handoff conjunct with a provider that
always answers plain text, and the handoff conjunct with the ping-pong
provider, both on a fresh state for user `default`. -/
theorem claim_C2_witness :
    stFresh.currentAgent "default" = some "solar_agent" ∧
    registeredAgents.contains "solar_agent" = true ∧
    (((fun agentId _hist => (AgentResp.message "Guten Tag!" agentId)) : String → List Msg → AgentResp) =
      (fun agentId _hist => (AgentResp.message "Guten Tag!" agentId)) ∧
     dlookup (processMessage
        { agentProcess := fun agentId _message hist =>
            (.message "Guten Tag!" agentId, hist),
          extractContactInfo := fun _ => [],
          detectInitialAgent := fun _ => "solar_agent" }
        "t0" "Hallo" none "default" stFresh).1 "type" = some (.s "message") ∧
     (dlookup (processMessage
        { agentProcess := fun agentId _message hist =>
            (.message "Guten Tag!" agentId, hist),
          extractContactInfo := fun _ => [],
          detectInitialAgent := fun _ => "solar_agent" }
        "t0" "Hallo" none "default" stFresh).1 "context").isSome) ∧
    ((processMessage handoffBot "t0" "Hallo" none "default" stFresh).1 =
      ((handoffBot.agentProcess "calendar_agent" "Hallo"
        ([{ role := "user", content := "Hallo" }] ++
         [{ role := "system", content := "Übergabe an calendar_agent wegen: Terminanfrage" }])).1).toDict ∧
     dlookup (processMessage handoffBot "t0" "Hallo" none "default" stFresh).1
       "type" = some (.s "handoff") ∧
     ¬((dlookup (processMessage handoffBot "t0" "Hallo" none "default" stFresh).1
          "content").isSome ∧
       (dlookup (processMessage handoffBot "t0" "Hallo" none "default" stFresh).1
          "agent").isSome ∧
       (dlookup (processMessage handoffBot "t0" "Hallo" none "default" stFresh).1
          "context").isSome)) :=
  ⟨rfl, rfl,
   ⟨rfl,
    by
      have h := (claim_C2_amended
        { agentProcess := fun agentId _message hist =>
            (.message "Guten Tag!" agentId, hist),
          extractContactInfo := fun _ => [],
          detectInitialAgent := fun _ => "solar_agent" }
        "t0" "Hallo" none "default" stFresh "solar_agent" rfl rfl).1 (by decide)
      exact h.2.1,
    by
      have h := (claim_C2_amended
        { agentProcess := fun agentId _message hist =>
            (.message "Guten Tag!" agentId, hist),
          extractContactInfo := fun _ => [],
          detectInitialAgent := fun _ => "solar_agent" }
        "t0" "Hallo" none "default" stFresh "solar_agent" rfl rfl).1 (by decide)
      exact h.2.2.2.2⟩,
   by
     have h := (claim_C2_amended handoffBot "t0" "Hallo" none "default" stFresh
       "solar_agent" rfl rfl).2 "calendar_agent" "Terminanfrage" (.dict [])
       [{ role := "user", content := "Hallo" }] rfl (by decide) rfl
     exact ⟨h.1, h.2.1, h.2.2⟩⟩

end SolarBot
